import Mathlib

/-!
Verification development for the `training_app` learning-management backend
(`src/training_app/models.py`, `src/training_app/views.py`,
`src/training_app/serializers.py`).

The database is embedded as explicit lists of rows; each Django query used by
the code under scrutiny is translated into the corresponding list operation
(`filter(...)`.exists()` becomes `List.any`, `get(...)`/`.first()` becomes
`List.find?`, a joined filter condition becomes the boolean conjunction of the
join predicate).  View functions become pure functions from the database state
and the request data to an outcome together with the new database state.
-/

namespace TrainingApp

/-- A user row (`models.User`): primary key, `role` tag and staff flag. -/
structure UserM where
  id : Nat
  role : String
  is_staff : Bool
deriving DecidableEq, Repr

/-- A course row (`models.Course`), restricted to the fields the verified
views consult: pk, publication flag, creator and assigned teachers. -/
structure Course where
  id : Nat
  is_published : Bool
  createdById : Option Nat
  assignedTeacherIds : List Nat
deriving DecidableEq, Repr

/-- A package row (`models.Package`) with its many-to-many course set. -/
structure Package where
  id : Nat
  is_published : Bool
  is_free : Bool
  courseIds : List Nat
deriving DecidableEq, Repr

/-- A purchase row (`models.PackagePurchase`). -/
structure PackagePurchase where
  studentId : Nat
  packageId : Nat
  status : String
deriving DecidableEq, Repr

/-- A quiz row (`models.Quiz`). -/
structure Quiz where
  id : Nat
  courseId : Nat
  title : String
  description : String
  is_published : Bool
deriving DecidableEq, Repr

/-- A question row (`models.QuizQuestion`). -/
structure QuizQuestion where
  id : Nat
  quizId : Nat
  prompt : String
  order : Nat
deriving DecidableEq, Repr

/-- A choice row (`models.QuizChoice`). -/
structure QuizChoice where
  id : Nat
  questionId : Nat
  text : String
  is_correct : Bool
deriving DecidableEq, Repr

/-- A submission row (`models.QuizSubmission`). -/
structure QuizSubmission where
  id : Nat
  quizId : Nat
  studentId : Nat
  score : Nat
  total : Nat
deriving DecidableEq, Repr

/-- An answer row (`models.QuizAnswer`); `selectedChoiceId` is nullable. -/
structure QuizAnswer where
  submissionId : Nat
  questionId : Nat
  selectedChoiceId : Option Nat
  is_correct : Bool
deriving DecidableEq, Repr

/-- The database state: one list of rows per table, plus the primary-key
counters the storage layer uses for newly inserted rows. -/
structure DB where
  courses : List Course
  packages : List Package
  purchases : List PackagePurchase
  quizzes : List Quiz
  questions : List QuizQuestion
  choices : List QuizChoice
  submissions : List QuizSubmission
  answerRows : List QuizAnswer
  nextSubmissionId : Nat
  nextQuestionId : Nat
  nextChoiceId : Nat
deriving DecidableEq, Repr

/-- `views.student_has_course_access` (views.py:61-68): the entitlement
predicate.  `PackagePurchase.objects.filter(student=user, status="active",
package__courses=course, package__is_published=True).exists()` — an active
purchase row whose package is published and contains the course. -/
def student_has_course_access (db : DB) (userId : Nat) (courseId : Nat) : Bool :=
  db.purchases.any fun p =>
    p.studentId == userId && p.status == "active" &&
      db.packages.any fun pkg =>
        pkg.id == p.packageId && pkg.is_published && pkg.courseIds.contains courseId

/-- `views.can_modify_course` (views.py:50-55): staff may modify anything, a
teacher may modify a course they are assigned to (`Course.is_teacher_assigned`
checks only the `assigned_teachers` set, models.py:147-148). -/
def can_modify_course (user : UserM) (course : Course) : Bool :=
  if user.is_staff then true
  else if user.role == "teacher" then course.assignedTeacherIds.contains user.id
  else false

/-- A key of the JSON `answers` object in a quiz-submission request body:
JSON object keys are strings, but `quiz_submit` also probes the mapping with
the numeric question id (`answers.get(q.id)`), so after Python's JSON parsing
the embedding keeps both key shapes. -/
inductive JKey where
  | s (v : String)
  | n (v : Int)
deriving DecidableEq, Repr, BEq

/-- The request body of `quiz_submit`: `request.data.get("answers")` is either
a JSON object (question key -> choice id) or some non-mapping value. -/
inductive Payload where
  | dict (entries : List (JKey × Int))
  | nondict
deriving DecidableEq, Repr

/-- Python `dict.get`: the value stored under `k`, when present. -/
def dictGet (d : List (JKey × Int)) (k : JKey) : Option Int :=
  (d.find? (fun e => e.1 == k)).map (fun e => e.2)

/-- views.py:692: `answers.get(str(q.id)) or answers.get(q.id)` — the string
key is probed first; Python's `or` falls through to the numeric key when the
first lookup is missing (or yields the falsy value `0`). -/
def lookupAnswer (d : List (JKey × Int)) (qid : Nat) : Option Int :=
  match dictGet d (JKey.s (toString qid)) with
  | some v => if v == 0 then dictGet d (JKey.n (Int.ofNat qid)) else some v
  | none => dictGet d (JKey.n (Int.ofNat qid))

/-- `quiz.questions` (models.py:276): the questions of a quiz.  The Django
relation is ordered by the `order` column; every property proved below is
invariant under permutation of this list, so the embedding keeps the table's
row order. -/
def quizQuestionsOf (db : DB) (quizId : Nat) : List QuizQuestion :=
  db.questions.filter (fun q => q.quizId == quizId)

/-- `q.choices` (models.py:289): the choice rows of one question. -/
def choicesOfQuestion (db : DB) (qid : Nat) : List QuizChoice :=
  db.choices.filter (fun c => c.questionId == qid)

/-- views.py:695: `QuizChoice.objects.filter(id=selected_choice_id,
question=q).first()` — the selected id resolved to a choice of this question. -/
def resolveSelectedChoice (db : DB) (v : Int) (qid : Nat) : Option QuizChoice :=
  db.choices.find? (fun c => Int.ofNat c.id == v && c.questionId == qid)

/-- views.py:697: `next((c for c in q.choices.all() if c.is_correct), None)` —
the first choice of the question flagged correct, if any. -/
def correctChoice (db : DB) (q : QuizQuestion) : Option QuizChoice :=
  (choicesOfQuestion db q.id).find? (fun c => c.is_correct)

/-- One entry of the `results` list of `quiz_submit` (views.py:708-713); the
same data is persisted as the question's `QuizAnswer` row. -/
structure PerQuestionResult where
  question_id : Nat
  selected_choice_id : Option Nat
  correct_choice_id : Option Nat
  is_correct : Bool
deriving DecidableEq, Repr

/-- The per-question grading step of `quiz_submit` (views.py:692-713). -/
def gradeQuestion (db : DB) (d : List (JKey × Int)) (q : QuizQuestion) :
    PerQuestionResult :=
  let sel : Option QuizChoice :=
    match lookupAnswer d q.id with
    | none => none
    | some v => resolveSelectedChoice db v q.id
  let corr := correctChoice db q
  let isc : Bool :=
    match sel, corr with
    | some s, some c => s.id == c.id
    | _, _ => false
  { question_id := q.id
    selected_choice_id := sel.map (fun c => c.id)
    correct_choice_id := corr.map (fun c => c.id)
    is_correct := isc }

/-- Modelled from Python semantics: `round(x, 2)` — round to two decimal
places, ties to the nearest even hundredth (Python rounds half to even; the
claims proved below do not depend on the tie-breaking mode).  Python computes
on binary floats; the embedding uses exact rationals. -/
def roundHalfEven (x : ℚ) : ℤ :=
  let n := ⌊x⌋
  let frac := x - n
  if frac < 1/2 then n
  else if 1/2 < frac then n + 1
  else if n % 2 = 0 then n else n + 1

/-- Python `round(x, 2)` on a rational value. -/
def pyRound2 (x : ℚ) : ℚ := (roundHalfEven (x * 100) : ℚ) / 100

/-- `Quiz.objects.get(pk=quiz_id, is_published=True, course__is_published=True)`
(views.py:673): the single query joins the course table, so a quiz row
qualifies only if some course row matches its foreign key and is published. -/
def quizForSubmit (db : DB) (quizId : Nat) : Option Quiz :=
  db.quizzes.find? fun z =>
    z.id == quizId && z.is_published &&
      db.courses.any (fun c => c.id == z.courseId && c.is_published)

/-- The successful response body of `quiz_submit` (views.py:721-727). -/
structure SubmitResponse where
  submissionId : Nat
  score : Nat
  total : Nat
  percent : ℚ
  results : List PerQuestionResult
deriving DecidableEq, Repr

/-- Outcome of `quiz_submit`: 404, 403, 400 or the 200 response. -/
inductive SubmitOutcome where
  | notFound
  | forbidden
  | badRequest
  | ok (resp : SubmitResponse)
deriving DecidableEq, Repr

/-- `views.quiz_submit` (views.py:667-727).  Gates: `student_only`, the quiz
lookup with published filters, the entitlement predicate, the `answers` shape
check; then the single grading pass.  The code first inserts the Submission
with `score=0` and rewrites `score`/`total` after the pass (views.py:688,
715-717); the embedding records the resulting final state. -/
def quiz_submit (db : DB) (user : UserM) (quizId : Nat) (payload : Payload) :
    SubmitOutcome × DB :=
  if user.role != "student" then (SubmitOutcome.forbidden, db)
  else
    match quizForSubmit db quizId with
    | none => (SubmitOutcome.notFound, db)
    | some quiz =>
      if !student_has_course_access db user.id quiz.courseId then
        (SubmitOutcome.forbidden, db)
      else
        match payload with
        | Payload.nondict => (SubmitOutcome.badRequest, db)
        | Payload.dict answers =>
          let qs := quizQuestionsOf db quiz.id
          let total := qs.length
          let results := qs.map (gradeQuestion db answers)
          let score := results.countP (fun r => r.is_correct)
          let subId := db.nextSubmissionId
          let submission : QuizSubmission :=
            { id := subId, quizId := quiz.id, studentId := user.id
              score := score, total := total }
          let newRows : List QuizAnswer := results.map fun r =>
            { submissionId := subId, questionId := r.question_id
              selectedChoiceId := r.selected_choice_id, is_correct := r.is_correct }
          let percent : ℚ :=
            if total > 0 then pyRound2 ((score : ℚ) / (total : ℚ) * 100) else 0
          (SubmitOutcome.ok
            { submissionId := subId, score := score, total := total
              percent := percent, results := results },
            { db with
                submissions := db.submissions ++ [submission]
                answerRows := db.answerRows ++ newRows
                nextSubmissionId := subId + 1 })

/-- One element of the `choices` list accepted by
`QuizQuestionCreateSerializer` (serializers.py:419-425): a dict with a `text`
value (`""` stands for a missing or empty text, both falsy in the
`not c.get("text")` check) and the truthiness of its `is_correct` value. -/
structure ChoiceInput where
  text : String
  is_correct : Bool
deriving DecidableEq, Repr

/-- `QuizQuestionCreateSerializer.validate_choices` (serializers.py:431-440):
at least two choices, exactly one flagged correct, every text non-empty. -/
def validate_choices (value : List ChoiceInput) : Bool :=
  decide (2 ≤ value.length) && (value.countP (fun c => c.is_correct) == 1) &&
    value.all (fun c => c.text != "")

/-- The choice rows inserted by the creation loop of `quiz_add_question`
(views.py:657-662), with storage-assigned consecutive primary keys. -/
def assignChoiceIds : Nat → Nat → List ChoiceInput → List QuizChoice
  | _, _, [] => []
  | nextId, qid, c :: rest =>
      { id := nextId, questionId := qid, text := c.text, is_correct := c.is_correct }
        :: assignChoiceIds (nextId + 1) qid rest

/-- Outcome of `quiz_add_question`: 404, 403, 400 or 201 with the new pk. -/
inductive AddQuestionOutcome where
  | notFound
  | forbidden
  | badRequest
  | ok (questionId : Nat)
deriving DecidableEq, Repr

/-- `views.quiz_add_question` (views.py:637-664): `teacher_or_admin_only`,
quiz lookup (`select_related("course")` joins the course row), the
`can_modify_course` gate, serializer validation, then the question insert
followed by one insert per validated choice. -/
def quiz_add_question (db : DB) (user : UserM) (quizId : Nat) (prompt : String)
    (ord : Nat) (choices_data : List ChoiceInput) : AddQuestionOutcome × DB :=
  if !(user.is_staff || user.role == "teacher") then (AddQuestionOutcome.forbidden, db)
  else
    match db.quizzes.find? (fun z => z.id == quizId) with
    | none => (AddQuestionOutcome.notFound, db)
    | some quiz =>
      match db.courses.find? (fun c => c.id == quiz.courseId) with
      | none => (AddQuestionOutcome.notFound, db)
      | some course =>
        if !can_modify_course user course then (AddQuestionOutcome.forbidden, db)
        else if !validate_choices choices_data then (AddQuestionOutcome.badRequest, db)
        else
          let qid := db.nextQuestionId
          let newQ : QuizQuestion :=
            { id := qid, quizId := quiz.id, prompt := prompt, order := ord }
          (AddQuestionOutcome.ok qid,
            { db with
                questions := db.questions ++ [newQ]
                choices := db.choices ++ assignChoiceIds db.nextChoiceId qid choices_data
                nextQuestionId := qid + 1
                nextChoiceId := db.nextChoiceId + choices_data.length })

/-- Outcome of `purchase_package`: 404, 403, 201 (created) or 200 (existing). -/
inductive PurchaseOutcome where
  | notFound
  | forbidden
  | created (p : PackagePurchase)
  | alreadyOwned (p : PackagePurchase)
deriving DecidableEq, Repr

/-- `views.purchase_package` (views.py:803-826): `student_only`, the published
package lookup, then `PackagePurchase.objects.get_or_create(student=...,
package=..., defaults={"status": "active"})` — the defaults apply only when no
row for the (student, package) pair exists. -/
def purchase_package (db : DB) (user : UserM) (pk : Nat) : PurchaseOutcome × DB :=
  if user.role != "student" then (PurchaseOutcome.forbidden, db)
  else
    match db.packages.find? (fun p => p.id == pk && p.is_published) with
    | none => (PurchaseOutcome.notFound, db)
    | some _pkg =>
      match db.purchases.find? (fun p => p.studentId == user.id && p.packageId == pk) with
      | some existing => (PurchaseOutcome.alreadyOwned existing, db)
      | none =>
        let newP : PackagePurchase :=
          { studentId := user.id, packageId := pk, status := "active" }
        (PurchaseOutcome.created newP, { db with purchases := db.purchases ++ [newP] })

/-- `QuizChoiceSerializer` output (serializers.py:367-370): id and text only. -/
structure ChoiceView where
  id : Nat
  text : String
deriving DecidableEq, Repr

/-- `QuizQuestionSerializer` output (serializers.py:379-384). -/
structure QuestionView where
  id : Nat
  prompt : String
  order : Nat
  choices : List ChoiceView
deriving DecidableEq, Repr

/-- `QuizSerializer` output (serializers.py:395-401): the student-facing quiz
rendering, questions nested with answer-key-free choices. -/
structure QuizView where
  id : Nat
  course : Nat
  title : String
  description : String
  is_published : Bool
  questions : List QuestionView
deriving DecidableEq, Repr

/-- `QuizSubmissionSerializer` output (serializers.py:443-448): the nested
quiz uses the student-facing `QuizSerializer`. -/
structure SubmissionView where
  id : Nat
  quiz : Option QuizView
  score : Nat
  total : Nat
deriving DecidableEq, Repr

/-- `QuizChoiceSerializer` (serializers.py:367-370). -/
def QuizChoiceSerializer (c : QuizChoice) : ChoiceView :=
  { id := c.id, text := c.text }

/-- `QuizQuestionSerializer` (serializers.py:379-384). -/
def QuizQuestionSerializer (db : DB) (q : QuizQuestion) : QuestionView :=
  { id := q.id, prompt := q.prompt, order := q.order
    choices := (choicesOfQuestion db q.id).map QuizChoiceSerializer }

/-- `QuizSerializer` (serializers.py:395-401). -/
def QuizSerializer (db : DB) (z : Quiz) : QuizView :=
  { id := z.id, course := z.courseId, title := z.title
    description := z.description, is_published := z.is_published
    questions := (quizQuestionsOf db z.id).map (QuizQuestionSerializer db) }

/-- `QuizSubmissionSerializer` (serializers.py:443-448). -/
def QuizSubmissionSerializer (db : DB) (s : QuizSubmission) : SubmissionView :=
  { id := s.id
    quiz := (db.quizzes.find? (fun z => z.id == s.quizId)).map (QuizSerializer db)
    score := s.score, total := s.total }

/-- A database whose choice rows had their `is_correct` flags reassigned by
`g` and is otherwise identical: the generic "two states differing only in the
answer key" relation. -/
def flipCorrect (g : QuizChoice → Bool) (db : DB) : DB :=
  { db with choices := db.choices.map (fun c => { c with is_correct := g c }) }

end TrainingApp

namespace TrainingApp

/-- Concrete state: a published free package (id 7) containing the published
course 1, and no purchase rows at all. -/
def dbFree : DB :=
  { courses := [{ id := 1, is_published := true, createdById := none, assignedTeacherIds := [] }]
    packages := [{ id := 7, is_published := true, is_free := true, courseIds := [1] }]
    purchases := []
    quizzes := []
    questions := []
    choices := []
    submissions := []
    answerRows := []
    nextSubmissionId := 1
    nextQuestionId := 1
    nextChoiceId := 1 }

/-- Concrete state used to witness the quiz theorems: a published course (1)
bundled in a published package (1) actively purchased by student 10; quiz 1
(three questions, each with one correct choice), quiz 2 (no questions) and
quiz 3 (one question none of whose choices is flagged correct). -/
def db0 : DB :=
  { courses := [{ id := 1, is_published := true, createdById := some 1, assignedTeacherIds := [2] }]
    packages := [{ id := 1, is_published := true, is_free := false, courseIds := [1] }]
    purchases := [{ studentId := 10, packageId := 1, status := "active" }]
    quizzes :=
      [{ id := 1, courseId := 1, title := "q", description := "", is_published := true },
       { id := 2, courseId := 1, title := "empty", description := "", is_published := true },
       { id := 3, courseId := 1, title := "broken", description := "", is_published := true }]
    questions :=
      [{ id := 101, quizId := 1, prompt := "p1", order := 1 },
       { id := 102, quizId := 1, prompt := "p2", order := 2 },
       { id := 103, quizId := 1, prompt := "p3", order := 3 },
       { id := 301, quizId := 3, prompt := "p4", order := 1 }]
    choices :=
      [{ id := 1001, questionId := 101, text := "a", is_correct := true },
       { id := 1002, questionId := 101, text := "b", is_correct := false },
       { id := 1003, questionId := 102, text := "c", is_correct := false },
       { id := 1004, questionId := 102, text := "d", is_correct := true },
       { id := 1005, questionId := 103, text := "e", is_correct := true },
       { id := 1006, questionId := 103, text := "f", is_correct := false },
       { id := 3001, questionId := 301, text := "g", is_correct := false },
       { id := 3002, questionId := 301, text := "h", is_correct := false }]
    submissions := []
    answerRows := []
    nextSubmissionId := 500
    nextQuestionId := 400
    nextChoiceId := 4000 }

/-- The student of `db0`. -/
def student10 : UserM := { id := 10, role := "student", is_staff := false }

/-- A staff user. -/
def admin1 : UserM := { id := 1, role := "teacher", is_staff := true }

/-- Answers for quiz 1: question 101 answered correctly under its string key,
question 102 answered correctly under its numeric key, question 103 skipped. -/
def pay0 : List (JKey × Int) := [(JKey.s "101", 1001), (JKey.n 102, 1004)]

end TrainingApp

open TrainingApp

/-- C1 counterexample: in `dbFree` there is a published, free package
containing course 1, yet `student_has_course_access` denies student 10 access
to course 1 — the predicate has no free-package branch, so the claimed
free-package clause of the iff fails. -/
theorem C1_free_package_counterexample :
    (∃ pkg ∈ dbFree.packages,
        pkg.is_published = true ∧ pkg.is_free = true ∧ 1 ∈ pkg.courseIds) ∧
      student_has_course_access dbFree 10 1 = false := by
  decide

/-- C1 (amended): `student_has_course_access(student, course)` returns true
if and only if there exists an active `PackagePurchase` by that student for a
published package containing the course; published free packages confer no
access by themselves — a purchase row is required even for free packages. -/
theorem C1_student_has_course_access_iff (db : DB) (userId courseId : Nat) :
    student_has_course_access db userId courseId = true ↔
      ∃ p ∈ db.purchases, p.studentId = userId ∧ p.status = "active" ∧
        ∃ pkg ∈ db.packages, pkg.id = p.packageId ∧ pkg.is_published = true ∧
          courseId ∈ pkg.courseIds := by
  simp only [student_has_course_access, List.any_eq_true, Bool.and_eq_true,
    beq_iff_eq, List.contains_iff_exists_mem_beq]
  constructor
  · rintro ⟨p, hp, ⟨⟨h1, h2⟩, pkg, hpkg, ⟨h3, h4⟩, c, hc, h5⟩⟩
    exact ⟨p, hp, h1, h2, pkg, hpkg, h3, h4, h5 ▸ hc⟩
  · rintro ⟨p, hp, h1, h2, pkg, hpkg, h3, h4, h5⟩
    exact ⟨p, hp, ⟨⟨h1, h2⟩, pkg, hpkg, ⟨h3, h4⟩, courseId, h5, rfl⟩⟩

namespace TrainingApp

/-- Inversion of a successful `quiz_submit`: the found quiz carries the
requested id, and the response and the new state are the grading pass's
records. -/
theorem quiz_submit_ok_inv (db : DB) (u : UserM) (quizId : Nat)
    (d : List (JKey × Int)) (resp : SubmitResponse) (db' : DB)
    (h : quiz_submit db u quizId (Payload.dict d) = (SubmitOutcome.ok resp, db')) :
    ∃ quiz, quizForSubmit db quizId = some quiz ∧ quiz.id = quizId ∧
      resp = { submissionId := db.nextSubmissionId
               score := ((quizQuestionsOf db quizId).map (gradeQuestion db d)).countP
                          (fun r => r.is_correct)
               total := (quizQuestionsOf db quizId).length
               percent :=
                 if (quizQuestionsOf db quizId).length > 0 then
                   pyRound2
                     (((((quizQuestionsOf db quizId).map (gradeQuestion db d)).countP
                          (fun r => r.is_correct) : ℚ)) /
                        ((quizQuestionsOf db quizId).length : ℚ) * 100)
                 else 0
               results := (quizQuestionsOf db quizId).map (gradeQuestion db d) } ∧
      db' = { db with
                submissions := db.submissions ++
                  [{ id := db.nextSubmissionId, quizId := quizId, studentId := u.id
                     score := resp.score, total := resp.total }]
                answerRows := db.answerRows ++ resp.results.map (fun r =>
                  { submissionId := db.nextSubmissionId, questionId := r.question_id
                    selectedChoiceId := r.selected_choice_id, is_correct := r.is_correct })
                nextSubmissionId := db.nextSubmissionId + 1 } := by
  unfold quiz_submit at h
  split at h
  · exact absurd h (by simp)
  · split at h
    · exact absurd h (by simp)
    · rename_i quiz heq
      split at h
      · exact absurd h (by simp)
      · rename_i hacc
        have hid : quiz.id = quizId := by
          have hp := List.find?_some heq
          simp only [Bool.and_eq_true, beq_iff_eq] at hp
          exact hp.1.1
        simp only [Prod.mk.injEq, SubmitOutcome.ok.injEq] at h
        obtain ⟨h1, h2⟩ := h
        subst h1
        subst h2
        exact ⟨quiz, heq, hid, by rw [hid], by rw [hid]⟩

end TrainingApp

namespace TrainingApp

/-- The outcome of submitting quiz 1 of `db0` with answers `pay0`. -/
def submitOut1 : SubmitOutcome × DB := quiz_submit db0 student10 1 (Payload.dict pay0)

/-- The response part of `submitOut1`. -/
def resp1 : SubmitResponse :=
  match submitOut1.1 with
  | SubmitOutcome.ok r => r
  | _ => { submissionId := 0, score := 0, total := 0, percent := 0, results := [] }

/-- The database state after `submitOut1`. -/
def db0a : DB := submitOut1.2

end TrainingApp

/-- C2: on a successful submission the grading pass creates one result row
(and one persisted Answer row) per question — skipped questions included,
with a null selection — sets `total` to the question count, sets `score` to
the count of questions whose selected choice (resolved from the string or the
numeric key form of the question id to a choice of that question) equals the
question's correct choice, and writes `score`/`total` into the stored
Submission row. -/
theorem C2_quiz_submit_grading (db : DB) (u : UserM) (quizId : Nat)
    (d : List (JKey × Int)) (resp : SubmitResponse) (db' : DB)
    (h : quiz_submit db u quizId (Payload.dict d) = (SubmitOutcome.ok resp, db')) :
    resp.results = (quizQuestionsOf db quizId).map (gradeQuestion db d) ∧
    resp.results.length = (quizQuestionsOf db quizId).length ∧
    resp.total = (quizQuestionsOf db quizId).length ∧
    resp.score = (quizQuestionsOf db quizId).countP (fun q =>
      match (match lookupAnswer d q.id with
             | none => none
             | some v => resolveSelectedChoice db v q.id), correctChoice db q with
      | some s, some c => s.id == c.id
      | _, _ => false) ∧
    (∀ q ∈ quizQuestionsOf db quizId, lookupAnswer d q.id = none →
      (gradeQuestion db d q).selected_choice_id = none) ∧
    db'.answerRows = db.answerRows ++ resp.results.map (fun r =>
      { submissionId := resp.submissionId, questionId := r.question_id
        selectedChoiceId := r.selected_choice_id, is_correct := r.is_correct }) ∧
    db'.submissions = db.submissions ++
      [{ id := resp.submissionId, quizId := quizId, studentId := u.id
         score := resp.score, total := resp.total }] := by
  obtain ⟨quiz, heq, hid, hresp, hdb⟩ := quiz_submit_ok_inv db u quizId d resp db' h
  subst hresp
  subst hdb
  refine ⟨rfl, by simp, rfl, ?_, ?_, rfl, rfl⟩
  · simp only [List.countP_map]
    rfl
  · intro q _ hq
    simp [gradeQuestion, hq]

/-- C2 witness: the three-question quiz 1 of `db0`, answered correctly on
question 101 (string key) and 102 (numeric key) and skipped on 103. -/
theorem C2_quiz_submit_grading_witness :
    resp1.results = (quizQuestionsOf db0 1).map (gradeQuestion db0 pay0) ∧
    resp1.results.length = (quizQuestionsOf db0 1).length ∧
    resp1.total = (quizQuestionsOf db0 1).length ∧
    resp1.score = (quizQuestionsOf db0 1).countP (fun q =>
      match (match lookupAnswer pay0 q.id with
             | none => none
             | some v => resolveSelectedChoice db0 v q.id), correctChoice db0 q with
      | some s, some c => s.id == c.id
      | _, _ => false) ∧
    (∀ q ∈ quizQuestionsOf db0 1, lookupAnswer pay0 q.id = none →
      (gradeQuestion db0 pay0 q).selected_choice_id = none) ∧
    db0a.answerRows = db0.answerRows ++ resp1.results.map (fun r =>
      { submissionId := resp1.submissionId, questionId := r.question_id
        selectedChoiceId := r.selected_choice_id, is_correct := r.is_correct }) ∧
    db0a.submissions = db0.submissions ++
      [{ id := resp1.submissionId, quizId := 1, studentId := student10.id
         score := resp1.score, total := resp1.total }] :=
  C2_quiz_submit_grading db0 student10 1 pay0 resp1 db0a rfl

namespace TrainingApp

/-- The outcome of submitting the zero-question quiz 2 of `db0`. -/
def submitOut2 : SubmitOutcome × DB := quiz_submit db0 student10 2 (Payload.dict [])

/-- The response part of `submitOut2`. -/
def resp2 : SubmitResponse :=
  match submitOut2.1 with
  | SubmitOutcome.ok r => r
  | _ => { submissionId := 0, score := 0, total := 0, percent := 1, results := [] }

/-- The database state after `submitOut2`. -/
def db0b : DB := submitOut2.2

end TrainingApp

/-- C5: submitting a quiz with zero questions succeeds with
`score = 0`, `total = 0`, `percent = 0` (no division is attempted), and
whenever `total > 0` the returned percent is `round(score / total * 100, 2)`. -/
theorem C5_zero_questions_percent (db : DB) (u : UserM) (quizId : Nat)
    (d : List (JKey × Int)) (resp : SubmitResponse) (db' : DB)
    (h : quiz_submit db u quizId (Payload.dict d) = (SubmitOutcome.ok resp, db')) :
    (quizQuestionsOf db quizId = [] →
      resp.score = 0 ∧ resp.total = 0 ∧ resp.percent = 0) ∧
    (0 < resp.total →
      resp.percent = pyRound2 ((resp.score : ℚ) / (resp.total : ℚ) * 100)) := by
  obtain ⟨quiz, heq, hid, hresp, hdb⟩ := quiz_submit_ok_inv db u quizId d resp db' h
  subst hresp
  constructor
  · intro hnil
    simp [hnil]
  · intro hpos
    simp only at hpos ⊢
    rw [if_pos hpos]

/-- C5 witness: quiz 2 of `db0` has no questions; the submission succeeds and
reports `score = 0`, `total = 0`, `percent = 0`. -/
theorem C5_zero_questions_percent_witness :
    (quizQuestionsOf db0 2 = [] →
      resp2.score = 0 ∧ resp2.total = 0 ∧ resp2.percent = 0) ∧
    (0 < resp2.total →
      resp2.percent = pyRound2 ((resp2.score : ℚ) / (resp2.total : ℚ) * 100)) :=
  C5_zero_questions_percent db0 student10 2 [] resp2 db0b rfl

/-- C9: every successful submission satisfies `score ≤ total`,
`total = (number of questions of the quiz at grading time)`, the stored
Submission row repeats exactly these numbers, and the Answer rows attached to
the new submission correspond one-to-one, in order, to the quiz's questions. -/
theorem C9_submission_invariants (db : DB) (u : UserM) (quizId : Nat)
    (d : List (JKey × Int)) (resp : SubmitResponse) (db' : DB)
    (h : quiz_submit db u quizId (Payload.dict d) = (SubmitOutcome.ok resp, db'))
    (hfresh : ∀ r ∈ db.answerRows, r.submissionId ≠ db.nextSubmissionId) :
    resp.score ≤ resp.total ∧
    resp.total = (quizQuestionsOf db quizId).length ∧
    db'.submissions = db.submissions ++
      [{ id := resp.submissionId, quizId := quizId, studentId := u.id
         score := resp.score, total := resp.total }] ∧
    (db'.answerRows.filter (fun r => r.submissionId == resp.submissionId)).map
        (fun r => r.questionId)
      = (quizQuestionsOf db quizId).map (fun q => q.id) := by
  obtain ⟨quiz, heq, hid, hresp, hdb⟩ := quiz_submit_ok_inv db u quizId d resp db' h
  subst hresp
  subst hdb
  refine ⟨?_, rfl, rfl, ?_⟩
  · simpa using List.countP_le_length
      (p := fun r => r.is_correct)
      (l := (quizQuestionsOf db quizId).map (gradeQuestion db d))
  · simp only [List.filter_append]
    have hold : db.answerRows.filter
        (fun r => r.submissionId == db.nextSubmissionId) = [] := by
      rw [List.filter_eq_nil_iff]
      intro r hr
      simp [hfresh r hr]
    have hnew : ((((quizQuestionsOf db quizId).map (gradeQuestion db d)).map (fun r =>
        ({ submissionId := db.nextSubmissionId, questionId := r.question_id
           selectedChoiceId := r.selected_choice_id,
           is_correct := r.is_correct } : QuizAnswer))).filter
          (fun r => r.submissionId == db.nextSubmissionId))
        = (((quizQuestionsOf db quizId).map (gradeQuestion db d)).map (fun r =>
        ({ submissionId := db.nextSubmissionId, questionId := r.question_id
           selectedChoiceId := r.selected_choice_id,
           is_correct := r.is_correct } : QuizAnswer))) := by
      rw [List.filter_eq_self]
      intro a ha
      simp only [List.mem_map] at ha
      obtain ⟨r, _, hra⟩ := ha
      subst hra
      simp
    simp only at hnew ⊢
    rw [hold, hnew]
    simp [List.map_map, gradeQuestion]

/-- C9 witness: the quiz 1 submission of `db0` satisfies the invariants. -/
theorem C9_submission_invariants_witness :
    resp1.score ≤ resp1.total ∧
    resp1.total = (quizQuestionsOf db0 1).length ∧
    db0a.submissions = db0.submissions ++
      [{ id := resp1.submissionId, quizId := 1, studentId := student10.id
         score := resp1.score, total := resp1.total }] ∧
    (db0a.answerRows.filter (fun r => r.submissionId == resp1.submissionId)).map
        (fun r => r.questionId)
      = (quizQuestionsOf db0 1).map (fun q => q.id) :=
  C9_submission_invariants db0 student10 1 pay0 resp1 db0a rfl (by decide)

namespace TrainingApp

/-- Answers for quiz 1 of `db0` selecting, for question 101, the choice 1003
that belongs to question 102. -/
def pay4 : List (JKey × Int) := [(JKey.s "101", 1003)]

/-- The outcome of submitting quiz 1 of `db0` with the foreign choice id. -/
def submitOut4 : SubmitOutcome × DB := quiz_submit db0 student10 1 (Payload.dict pay4)

/-- The response part of `submitOut4`. -/
def resp4 : SubmitResponse :=
  match submitOut4.1 with
  | SubmitOutcome.ok r => r
  | _ => { submissionId := 0, score := 0, total := 0, percent := 0, results := [] }

/-- The database state after `submitOut4`. -/
def db0c : DB := submitOut4.2

/-- The first question of quiz 1 of `db0`. -/
def q101 : QuizQuestion := { id := 101, quizId := 1, prompt := "p1", order := 1 }

end TrainingApp

/-- C4: when the answers mapping supplies, for a question, a choice id that
belongs to no choice of that question, grading treats the question exactly as
unanswered: the graded entry coincides with the entry for an empty answers
mapping, the persisted Answer row carries a null selection and
`is_correct = false`, so the question contributes nothing to the score and no
error occurs. -/
theorem C4_foreign_choice_is_skip (db : DB) (u : UserM) (quizId : Nat)
    (d : List (JKey × Int)) (resp : SubmitResponse) (db' : DB)
    (q : QuizQuestion) (v : Int)
    (hv : lookupAnswer d q.id = some v)
    (hforeign : ∀ c ∈ db.choices, Int.ofNat c.id = v → c.questionId ≠ q.id)
    (h : quiz_submit db u quizId (Payload.dict d) = (SubmitOutcome.ok resp, db'))
    (hq : q ∈ quizQuestionsOf db quizId) :
    gradeQuestion db d q = gradeQuestion db [] q ∧
    (gradeQuestion db d q).selected_choice_id = none ∧
    (gradeQuestion db d q).is_correct = false ∧
    ({ submissionId := resp.submissionId, questionId := q.id
       selectedChoiceId := none, is_correct := false } : QuizAnswer)
      ∈ db'.answerRows := by
  have hres : resolveSelectedChoice db v q.id = none := by
    rw [resolveSelectedChoice, List.find?_eq_none]
    intro c hc
    simp only [Bool.and_eq_true, beq_iff_eq, not_and]
    exact fun h1 => hforeign c hc h1
  have hgrade : gradeQuestion db d q =
      { question_id := q.id, selected_choice_id := none
        correct_choice_id := (correctChoice db q).map (fun c => c.id)
        is_correct := false } := by
    cases hcc : correctChoice db q <;>
      simp [gradeQuestion, hv, hres, hcc]
  have hgrade0 : gradeQuestion db [] q =
      { question_id := q.id, selected_choice_id := none
        correct_choice_id := (correctChoice db q).map (fun c => c.id)
        is_correct := false } := by
    cases hcc : correctChoice db q <;>
      simp [gradeQuestion, lookupAnswer, dictGet, hcc]
  obtain ⟨quiz, heq, hid, hresp, hdb⟩ := quiz_submit_ok_inv db u quizId d resp db' h
  refine ⟨hgrade.trans hgrade0.symm, by rw [hgrade], by rw [hgrade], ?_⟩
  subst hresp
  subst hdb
  simp only [List.mem_append]
  right
  refine List.mem_map.mpr ⟨gradeQuestion db d q, List.mem_map_of_mem _ hq, ?_⟩
  rw [hgrade]

/-- C4 witness: submitting quiz 1 of `db0` with choice 1003 (a choice of
question 102) named for question 101 grades question 101 as skipped. -/
theorem C4_foreign_choice_is_skip_witness :
    gradeQuestion db0 pay4 q101 = gradeQuestion db0 [] q101 ∧
    (gradeQuestion db0 pay4 q101).selected_choice_id = none ∧
    (gradeQuestion db0 pay4 q101).is_correct = false ∧
    ({ submissionId := resp4.submissionId, questionId := q101.id
       selectedChoiceId := none, is_correct := false } : QuizAnswer)
      ∈ db0c.answerRows :=
  C4_foreign_choice_is_skip db0 student10 1 pay4 resp4 db0c q101 1003
    (by decide) (by decide) rfl (by decide)

namespace TrainingApp

/-- The quiz of `db0` whose only question has no choice flagged correct. -/
def quiz3 : Quiz := { id := 3, courseId := 1, title := "broken", description := "", is_published := true }

/-- The question of quiz 3 of `db0`. -/
def q301 : QuizQuestion := { id := 301, quizId := 3, prompt := "p4", order := 1 }

/-- Answers for quiz 3 of `db0` selecting choice 3001 of question 301. -/
def pay10 : List (JKey × Int) := [(JKey.s "301", 3001)]

end TrainingApp

/-- C10: if a question has no choice flagged correct, `quiz_submit` still
succeeds; the question's graded entry and persisted Answer row have
`is_correct = false` whatever the student selected, the per-question result
reports a null `correct_choice_id`, and the question contributes nothing to
the score. -/
theorem C10_no_correct_choice_safe (db : DB) (u : UserM) (quizId : Nat)
    (d : List (JKey × Int)) (z : Quiz) (q : QuizQuestion)
    (hrole : u.role = "student")
    (hz : quizForSubmit db quizId = some z)
    (hacc : student_has_course_access db u.id z.courseId = true)
    (hq : q ∈ quizQuestionsOf db quizId)
    (hnone : ∀ c ∈ db.choices, c.questionId = q.id → c.is_correct = false) :
    ∃ resp db', quiz_submit db u quizId (Payload.dict d) = (SubmitOutcome.ok resp, db') ∧
      (gradeQuestion db d q).is_correct = false ∧
      (gradeQuestion db d q).correct_choice_id = none ∧
      ({ question_id := q.id
         selected_choice_id := (gradeQuestion db d q).selected_choice_id
         correct_choice_id := none, is_correct := false } : PerQuestionResult)
        ∈ resp.results ∧
      ({ submissionId := resp.submissionId, questionId := q.id
         selectedChoiceId := (gradeQuestion db d q).selected_choice_id
         is_correct := false } : QuizAnswer) ∈ db'.answerRows := by
  obtain ⟨resp, db', hsub⟩ : ∃ resp db',
      quiz_submit db u quizId (Payload.dict d) = (SubmitOutcome.ok resp, db') := by
    unfold quiz_submit
    rw [hrole, hz]
    simp only [hacc, Bool.not_true, bne_self_eq_false, Bool.false_eq_true, if_false]
    exact ⟨_, _, rfl⟩
  have hcorr : correctChoice db q = none := by
    rw [correctChoice, List.find?_eq_none]
    intro c hc
    rw [choicesOfQuestion, List.mem_filter] at hc
    simp only [beq_iff_eq] at hc
    simp [hnone c hc.1 hc.2]
  have hgrade : gradeQuestion db d q =
      { question_id := q.id
        selected_choice_id := (gradeQuestion db d q).selected_choice_id
        correct_choice_id := none, is_correct := false } := by
    cases hl : lookupAnswer d q.id with
    | none => simp [gradeQuestion, hl, hcorr]
    | some v =>
      cases hr : resolveSelectedChoice db v q.id with
      | none => simp [gradeQuestion, hl, hr, hcorr]
      | some s => simp [gradeQuestion, hl, hr, hcorr]
  obtain ⟨quiz, _, _, hresp, hdb⟩ := quiz_submit_ok_inv db u quizId d resp db' hsub
  refine ⟨resp, db', hsub, by rw [hgrade], by rw [hgrade], ?_, ?_⟩
  · subst hresp
    exact hgrade ▸ List.mem_map_of_mem _ hq
  · subst hresp
    subst hdb
    simp only [List.mem_append]
    right
    refine List.mem_map.mpr ⟨gradeQuestion db d q, List.mem_map_of_mem _ hq, ?_⟩
    rw [hgrade]

/-- C10 witness: quiz 3 of `db0`, whose question 301 has no correct choice,
is submitted with choice 3001 selected and still grades without error. -/
theorem C10_no_correct_choice_safe_witness :
    ∃ resp db', quiz_submit db0 student10 3 (Payload.dict pay10) =
        (SubmitOutcome.ok resp, db') ∧
      (gradeQuestion db0 pay10 q301).is_correct = false ∧
      (gradeQuestion db0 pay10 q301).correct_choice_id = none ∧
      ({ question_id := q301.id
         selected_choice_id := (gradeQuestion db0 pay10 q301).selected_choice_id
         correct_choice_id := none, is_correct := false } : PerQuestionResult)
        ∈ resp.results ∧
      ({ submissionId := resp.submissionId, questionId := q301.id
         selectedChoiceId := (gradeQuestion db0 pay10 q301).selected_choice_id
         is_correct := false } : QuizAnswer) ∈ db'.answerRows :=
  C10_no_correct_choice_safe db0 student10 3 pay10 quiz3 q301
    rfl (by decide) (by decide) (by decide) (by decide)

namespace TrainingApp

/-- The published-quiz-with-published-course lookup finds nothing exactly when
no quiz row with the requested id is published with a published course. -/
theorem quizForSubmit_eq_none_iff (db : DB) (quizId : Nat) :
    quizForSubmit db quizId = none ↔
      ¬ ∃ z ∈ db.quizzes, z.id = quizId ∧ z.is_published = true ∧
        ∃ c ∈ db.courses, c.id = z.courseId ∧ c.is_published = true := by
  rw [quizForSubmit, List.find?_eq_none]
  constructor
  · rintro h ⟨z, hz, h1, h2, c, hc, h3, h4⟩
    apply h z hz
    simp only [Bool.and_eq_true, beq_iff_eq, List.any_eq_true]
    exact ⟨⟨h1, h2⟩, c, hc, h3, h4⟩
  · intro h z hz hpred
    simp only [Bool.and_eq_true, beq_iff_eq, List.any_eq_true] at hpred
    obtain ⟨⟨h1, h2⟩, c, hc, hcc⟩ := hpred
    exact h ⟨z, hz, h1, h2, c, hc, hcc.1, hcc.2⟩

end TrainingApp

/-- C3: for a student caller, `quiz_submit` has exactly three failure modes —
"not found" iff no published quiz with the requested id under a published
course exists; otherwise "forbidden" when the entitlement predicate denies the
quiz's course; otherwise "bad request" when the answers payload is not a
mapping; with a found quiz, entitlement and a mapping payload it succeeds —
and no failure outcome changes the database. -/
theorem C3_quiz_submit_failure_modes (db : DB) (u : UserM) (quizId : Nat)
    (payload : Payload) (hrole : u.role = "student") :
    ((quiz_submit db u quizId payload).1 = SubmitOutcome.notFound ↔
      ¬ ∃ z ∈ db.quizzes, z.id = quizId ∧ z.is_published = true ∧
        ∃ c ∈ db.courses, c.id = z.courseId ∧ c.is_published = true) ∧
    (∀ z, quizForSubmit db quizId = some z →
      (student_has_course_access db u.id z.courseId = false →
        quiz_submit db u quizId payload = (SubmitOutcome.forbidden, db)) ∧
      (student_has_course_access db u.id z.courseId = true →
        payload = Payload.nondict →
        quiz_submit db u quizId payload = (SubmitOutcome.badRequest, db)) ∧
      (student_has_course_access db u.id z.courseId = true →
        ∀ d, payload = Payload.dict d →
        ∃ resp db', quiz_submit db u quizId payload = (SubmitOutcome.ok resp, db'))) ∧
    ((∀ resp, (quiz_submit db u quizId payload).1 ≠ SubmitOutcome.ok resp) →
      (quiz_submit db u quizId payload).2 = db) := by
  have hne : (u.role != "student") = false := by simp [hrole]
  rcases hfs : quizForSubmit db quizId with _ | z
  · refine ⟨?_, ?_, ?_⟩
    · simp only [quiz_submit, hne, Bool.false_eq_true, if_false, hfs]
      exact iff_of_true trivial ((quizForSubmit_eq_none_iff db quizId).mp hfs)
    · intro z hz
      simp at hz
    · intro _
      simp [quiz_submit, hne, hfs]
  · have hex : ∃ z' ∈ db.quizzes, z'.id = quizId ∧ z'.is_published = true ∧
        ∃ c ∈ db.courses, c.id = z'.courseId ∧ c.is_published = true := by
      by_contra hcon
      rw [(quizForSubmit_eq_none_iff db quizId).mpr hcon] at hfs
      simp at hfs
    refine ⟨?_, ?_, ?_⟩
    · refine iff_of_false ?_ (not_not_intro hex)
      cases hacc : student_has_course_access db u.id z.courseId with
      | false => simp [quiz_submit, hne, hfs, hacc]
      | true =>
        cases payload with
        | dict d => simp [quiz_submit, hne, hfs, hacc]
        | nondict => simp [quiz_submit, hne, hfs, hacc]
    · intro z' hz'
      injection hz' with hzz
      subst hzz
      refine ⟨?_, ?_, ?_⟩
      · intro haccf
        simp [quiz_submit, hne, hfs, haccf]
      · intro hacct hpl
        subst hpl
        simp [quiz_submit, hne, hfs, hacct]
      · intro hacct d hpl
        subst hpl
        unfold quiz_submit
        rw [hrole, hfs]
        simp only [hacct, Bool.not_true, bne_self_eq_false, Bool.false_eq_true, if_false]
        exact ⟨_, _, rfl⟩
    · intro hnotok
      cases hacc : student_has_course_access db u.id z.courseId with
      | false => simp [quiz_submit, hne, hfs, hacc]
      | true =>
        cases payload with
        | nondict => simp [quiz_submit, hne, hfs, hacc]
        | dict d =>
          exfalso
          obtain ⟨resp, db', hsub⟩ : ∃ resp db',
              quiz_submit db u quizId (Payload.dict d) = (SubmitOutcome.ok resp, db') := by
            unfold quiz_submit
            rw [hrole, hfs]
            simp only [hacc, Bool.not_true, bne_self_eq_false, Bool.false_eq_true, if_false]
            exact ⟨_, _, rfl⟩
          exact hnotok resp (by rw [hsub])

/-- C3 witness: submitting quiz 1 of `db0` with a non-mapping body; the found
quiz is entitled, so the request fails as "bad request" and changes nothing. -/
theorem C3_quiz_submit_failure_modes_witness :
    quiz_submit db0 student10 1 Payload.nondict = (SubmitOutcome.badRequest, db0) :=
  ((C3_quiz_submit_failure_modes db0 student10 1 Payload.nondict rfl).2.1
      { id := 1, courseId := 1, title := "q", description := "", is_published := true }
      (by decide)).2.1 (by decide) rfl

namespace TrainingApp

/-- Every inserted choice row of the creation loop keeps its count. -/
theorem assignChoiceIds_length (n qid : Nat) (l : List ChoiceInput) :
    (assignChoiceIds n qid l).length = l.length := by
  induction l generalizing n with
  | nil => rfl
  | cons c rest ih => simp [assignChoiceIds, ih]

/-- Every inserted choice row of the creation loop points at the question. -/
theorem assignChoiceIds_questionId (n qid : Nat) (l : List ChoiceInput) :
    ∀ ch ∈ assignChoiceIds n qid l, ch.questionId = qid := by
  induction l generalizing n with
  | nil =>
    intro ch h
    simp [assignChoiceIds] at h
  | cons c rest ih =>
    intro ch h
    rw [assignChoiceIds] at h
    rcases List.mem_cons.mp h with h1 | h1
    · rw [h1]
    · exact ih (n + 1) ch h1

/-- The quiz 1 row of `db0`. -/
def quiz1 : Quiz := { id := 1, courseId := 1, title := "q", description := "", is_published := true }

/-- The course row of `db0`. -/
def course1 : Course := { id := 1, is_published := true, createdById := some 1, assignedTeacherIds := [2] }

/-- A valid choice list: two choices, exactly one correct, both with text. -/
def cd6 : List ChoiceInput := [{ text := "x", is_correct := true }, { text := "y", is_correct := false }]

end TrainingApp

/-- C6: with the role, quiz-existence and course-permission gates passed,
`quiz_add_question` rejects with a validation error — writing nothing — iff
the choice list has fewer than 2 entries, or the number of correct-flagged
choices is not exactly 1, or some choice has empty text; on valid input the
question row and all its choice rows are written in one atomic state change. -/
theorem C6_quiz_add_question_validation (db : DB) (u : UserM) (quizId : Nat)
    (prompt : String) (ord : Nat) (cd : List ChoiceInput) (z : Quiz) (c : Course)
    (hstaff : (u.is_staff || u.role == "teacher") = true)
    (hz : db.quizzes.find? (fun q => q.id == quizId) = some z)
    (hc : db.courses.find? (fun x => x.id == z.courseId) = some c)
    (hperm : can_modify_course u c = true) :
    (validate_choices cd = false ↔
      (cd.length < 2 ∨ cd.countP (fun x => x.is_correct) ≠ 1 ∨ ∃ x ∈ cd, x.text = "")) ∧
    (validate_choices cd = false →
      quiz_add_question db u quizId prompt ord cd = (AddQuestionOutcome.badRequest, db)) ∧
    (validate_choices cd = true →
      quiz_add_question db u quizId prompt ord cd =
        (AddQuestionOutcome.ok db.nextQuestionId,
         { db with
            questions := db.questions ++
              [{ id := db.nextQuestionId, quizId := z.id, prompt := prompt, order := ord }]
            choices := db.choices ++ assignChoiceIds db.nextChoiceId db.nextQuestionId cd
            nextQuestionId := db.nextQuestionId + 1
            nextChoiceId := db.nextChoiceId + cd.length }) ∧
      (assignChoiceIds db.nextChoiceId db.nextQuestionId cd).length = cd.length ∧
      ∀ ch ∈ assignChoiceIds db.nextChoiceId db.nextQuestionId cd,
        ch.questionId = db.nextQuestionId) := by
  have hval : validate_choices cd = true ↔
      (2 ≤ cd.length ∧ cd.countP (fun x => x.is_correct) = 1 ∧
        ∀ x ∈ cd, x.text ≠ "") := by
    simp only [validate_choices, Bool.and_eq_true, decide_eq_true_eq, beq_iff_eq,
      List.all_eq_true, bne_iff_ne, ne_eq]
    tauto
  refine ⟨?_, ?_, ?_⟩
  · constructor
    · intro hf
      by_contra hcon
      push_neg at hcon
      obtain ⟨h1, h2, h3⟩ := hcon
      have : validate_choices cd = true := hval.mpr ⟨h1, h2, h3⟩
      rw [this] at hf
      simp at hf
    · intro hdisj
      by_contra hcon
      have hvt : validate_choices cd = true := by
        cases hb : validate_choices cd
        · exact absurd hb hcon
        · rfl
      obtain ⟨h1, h2, h3⟩ := hval.mp hvt
      rcases hdisj with h | h | h
      · omega
      · exact h h2
      · obtain ⟨x, hx, hxe⟩ := h
        exact h3 x hx hxe
  · intro hvf
    unfold quiz_add_question
    rw [hz]
    simp [hstaff, hperm, hvf, hc]
  · intro hvt
    refine ⟨?_, assignChoiceIds_length _ _ _, assignChoiceIds_questionId _ _ _⟩
    unfold quiz_add_question
    rw [hz]
    simp [hstaff, hperm, hvt, hc]

/-- C6 witness: an admin adds a two-choice question (one correct) to quiz 1 of
`db0`; the validation iff holds and both rows land in one state change. -/
theorem C6_quiz_add_question_validation_witness :
    (validate_choices cd6 = false ↔
      (cd6.length < 2 ∨ cd6.countP (fun x => x.is_correct) ≠ 1 ∨ ∃ x ∈ cd6, x.text = "")) ∧
    (validate_choices cd6 = false →
      quiz_add_question db0 admin1 1 "new" 4 cd6 = (AddQuestionOutcome.badRequest, db0)) ∧
    (validate_choices cd6 = true →
      quiz_add_question db0 admin1 1 "new" 4 cd6 =
        (AddQuestionOutcome.ok db0.nextQuestionId,
         { db0 with
            questions := db0.questions ++
              [{ id := db0.nextQuestionId, quizId := quiz1.id, prompt := "new", order := 4 }]
            choices := db0.choices ++ assignChoiceIds db0.nextChoiceId db0.nextQuestionId cd6
            nextQuestionId := db0.nextQuestionId + 1
            nextChoiceId := db0.nextChoiceId + cd6.length }) ∧
      (assignChoiceIds db0.nextChoiceId db0.nextQuestionId cd6).length = cd6.length ∧
      ∀ ch ∈ assignChoiceIds db0.nextChoiceId db0.nextQuestionId cd6,
        ch.questionId = db0.nextQuestionId) :=
  C6_quiz_add_question_validation db0 admin1 1 "new" 4 cd6 quiz1 course1
    (by decide) (by decide) (by decide) (by decide)

namespace TrainingApp

/-- `db0` with the purchase table emptied. -/
def dbNoPurchase : DB := { db0 with purchases := [] }

/-- The package row of `db0`. -/
def pkg1 : Package := { id := 1, is_published := true, is_free := false, courseIds := [1] }

end TrainingApp

/-- C7: `purchase_package` is idempotent on the (student, package) pair — for
a student with no prior row for a published package, the first call appends
exactly one active purchase row (the pair then occurs exactly once in the
table), and a repeated call appends nothing, returns the existing row and
reports it as already owned. -/
theorem C7_purchase_package_idempotent (db : DB) (u : UserM) (pk : Nat) (pkg : Package)
    (hrole : u.role = "student")
    (hpkg : db.packages.find? (fun p => p.id == pk && p.is_published) = some pkg)
    (hnew : ∀ p ∈ db.purchases, ¬(p.studentId = u.id ∧ p.packageId = pk)) :
    purchase_package db u pk =
      (PurchaseOutcome.created ({ studentId := u.id, packageId := pk, status := "active" } : PackagePurchase),
       { db with purchases := db.purchases ++
           [({ studentId := u.id, packageId := pk, status := "active" } : PackagePurchase)] }) ∧
    (db.purchases ++ [({ studentId := u.id, packageId := pk, status := "active" } : PackagePurchase)]).countP
        (fun p => p.studentId == u.id && p.packageId == pk) = 1 ∧
    purchase_package
        { db with purchases := db.purchases ++
            [({ studentId := u.id, packageId := pk, status := "active" } : PackagePurchase)] } u pk =
      (PurchaseOutcome.alreadyOwned ({ studentId := u.id, packageId := pk, status := "active" } : PackagePurchase),
       { db with purchases := db.purchases ++
           [({ studentId := u.id, packageId := pk, status := "active" } : PackagePurchase)] }) := by
  have hne : (u.role != "student") = false := by simp [hrole]
  have hfind : db.purchases.find?
      (fun p => p.studentId == u.id && p.packageId == pk) = none := by
    rw [List.find?_eq_none]
    intro p hp
    simp only [Bool.and_eq_true, beq_iff_eq, not_and]
    exact fun h1 h2 => hnew p hp ⟨h1, h2⟩
  refine ⟨?_, ?_, ?_⟩
  · unfold purchase_package
    rw [hpkg]
    simp [hne, hfind]
  · rw [List.countP_append]
    have h0 : db.purchases.countP
        (fun p => p.studentId == u.id && p.packageId == pk) = 0 := by
      rw [List.countP_eq_zero]
      intro p hp
      simp only [Bool.and_eq_true, beq_iff_eq, not_and]
      exact fun h1 h2 => hnew p hp ⟨h1, h2⟩
    rw [h0]
    simp [List.countP_cons]
  · unfold purchase_package
    rw [show ({ db with purchases := db.purchases ++
        [({ studentId := u.id, packageId := pk, status := "active" } : PackagePurchase)] } : DB).packages
        = db.packages from rfl, hpkg]
    simp [hne, List.find?_append, hfind]

/-- C7 witness: student 10 buys package 1 of `dbNoPurchase` twice; the first
call creates the single active row, the second reports "already owned". -/
theorem C7_purchase_package_idempotent_witness :
    purchase_package dbNoPurchase student10 1 =
      (PurchaseOutcome.created ({ studentId := student10.id, packageId := 1, status := "active" } : PackagePurchase),
       { dbNoPurchase with purchases := dbNoPurchase.purchases ++
           [({ studentId := student10.id, packageId := 1, status := "active" } : PackagePurchase)] }) ∧
    (dbNoPurchase.purchases ++
        [({ studentId := student10.id, packageId := 1, status := "active" } : PackagePurchase)]).countP
        (fun p => p.studentId == student10.id && p.packageId == 1) = 1 ∧
    purchase_package
        { dbNoPurchase with purchases := dbNoPurchase.purchases ++
            [({ studentId := student10.id, packageId := 1, status := "active" } : PackagePurchase)] } student10 1 =
      (PurchaseOutcome.alreadyOwned ({ studentId := student10.id, packageId := 1, status := "active" } : PackagePurchase),
       { dbNoPurchase with purchases := dbNoPurchase.purchases ++
           [({ studentId := student10.id, packageId := 1, status := "active" } : PackagePurchase)] }) :=
  C7_purchase_package_idempotent dbNoPurchase student10 1 pkg1
    rfl (by decide) (by decide)

namespace TrainingApp

/-- Rendering a question's choice rows through the student-facing serializer
is unaffected by reassigning the `is_correct` flags. -/
theorem serializeChoices_flip (g : QuizChoice → Bool) (l : List QuizChoice) (qid : Nat) :
    ((l.map (fun c => { c with is_correct := g c })).filter
        (fun c => c.questionId == qid)).map QuizChoiceSerializer
      = (l.filter (fun c => c.questionId == qid)).map QuizChoiceSerializer := by
  induction l with
  | nil => rfl
  | cons c rest ih =>
    simp only [List.map_cons, List.filter_cons]
    cases hq : (c.questionId == qid) <;>
      simp [hq, ih, QuizChoiceSerializer]

/-- The student-facing question rendering ignores the `is_correct` flags. -/
theorem QuizQuestionSerializer_flip (g : QuizChoice → Bool) (db : DB) :
    QuizQuestionSerializer (flipCorrect g db) = QuizQuestionSerializer db := by
  funext q
  simp only [QuizQuestionSerializer, choicesOfQuestion, flipCorrect]
  rw [serializeChoices_flip]

/-- The student-facing quiz rendering ignores the `is_correct` flags. -/
theorem QuizSerializer_flip (g : QuizChoice → Bool) (db : DB) :
    QuizSerializer (flipCorrect g db) = QuizSerializer db := by
  funext z
  simp only [QuizSerializer, quizQuestionsOf, flipCorrect]
  rw [show ({ db with choices := db.choices.map (fun c => { c with is_correct := g c }) } : DB).questions = db.questions from rfl]
  have := QuizQuestionSerializer_flip g db
  simp only [flipCorrect] at this
  rw [this]

end TrainingApp

/-- C8: the student-facing serializations never expose the correct flag — for
any reassignment of the `is_correct` flags (i.e. any two states that differ
only in which choices are correct), the rendered quiz detail, the rendered
quiz list and the quiz nested in a rendered submission are identical; each
choice is rendered as id and text only. -/
theorem C8_student_view_hides_answer_key (g : QuizChoice → Bool) (db : DB)
    (z : Quiz) (s : QuizSubmission) :
    QuizSerializer (flipCorrect g db) z = QuizSerializer db z ∧
    (flipCorrect g db).quizzes.map (QuizSerializer (flipCorrect g db))
      = db.quizzes.map (QuizSerializer db) ∧
    QuizSubmissionSerializer (flipCorrect g db) s = QuizSubmissionSerializer db s ∧
    (∀ c : QuizChoice, QuizChoiceSerializer c = { id := c.id, text := c.text }) := by
  refine ⟨by rw [QuizSerializer_flip], ?_, ?_, fun c => rfl⟩
  · rw [QuizSerializer_flip]
    rfl
  · simp only [QuizSubmissionSerializer, QuizSerializer_flip]
    rfl
